import Mathlib

/-!
Verification development for the HTTP-to-EMS bridge client wrapper
(Python sources: `http_to_ems_client.py`, `ems_send.py`, `publish.py`,
`request_reply.py`, `get_stats.py`).

The Python code is shallowly embedded: JSON documents become an inductive
`Json` type, `json.loads` becomes the executable parser `json_loads`,
HTTP responses become the record `HttpResponse`, raised exceptions become
an `Except PyException` result, and each CLI `main` becomes a function
from its parsed arguments and an explicit world (environment variables,
stdin, file system, HTTP response) to a `CliOutcome`.
-/

namespace BridgePy

/-! ## Python run-time values arising from `json.loads`

`num` keeps the numeric lexeme as written, which is all the client code
ever needs (no arithmetic is performed on decoded numbers). -/

inductive Json where
  | null
  | bool (b : Bool)
  | num (lexeme : String)
  | str (s : String)
  | arr (items : List Json)
  | obj (members : List (String × Json))
deriving Repr

/-- A JSON number lexeme denotes zero iff its mantissa (the part before any
exponent marker) has no digit 1-9. -/
def numLexemeZero (s : String) : Bool :=
  (s.data.takeWhile (fun c => c ≠ 'e' && c ≠ 'E')).all
    (fun c => !(('1' ≤ c) && (c ≤ '9')))

/-- Python truthiness (`bool(x)`) of a decoded JSON value. -/
def Json.truthy : Json → Bool
  | .null => false
  | .bool b => b
  | .num s => !numLexemeZero s
  | .str s => !(s = "")
  | .arr xs => !xs.isEmpty
  | .obj kvs => !kvs.isEmpty

/-- First-match association lookup on decoded object members (Python `dict`
keys are unique, so first match is the only match). -/
def jget (m : List (String × Json)) (k : String) : Option Json :=
  match m with
  | [] => none
  | (k', v) :: t => if k' = k then some v else jget t k

/-- Python `dict` assignment `d[k] = v`: replace in place when the key is
present, append otherwise. -/
def jset (m : List (String × Json)) (k : String) (v : Json) :
    List (String × Json) :=
  if (jget m k).isSome then m.map (fun p => if p.1 = k then (k, v) else p)
  else m ++ [(k, v)]

/-- Python `d.get(k, dflt)`. -/
def jgetD (m : List (String × Json)) (k : String) (dflt : Json) : Json :=
  match jget m k with
  | some v => v
  | none => dflt

/-! ## A model of `json.loads` (strict mode, as the stdlib defaults) -/

def isWs (c : Char) : Bool := c = ' ' || c = '\t' || c = '\n' || c = '\r'

def skipWs : List Char → List Char
  | c :: cs => if isWs c then skipWs cs else c :: cs
  | [] => []

/-- Value of one hexadecimal digit of a `\uXXXX` escape. -/
def hexVal (c : Char) : Option Nat :=
  let n := c.toNat
  if 48 ≤ n ∧ n ≤ 57 then some (n - 48)
  else if 97 ≤ n ∧ n ≤ 102 then some (n - 87)
  else if 65 ≤ n ∧ n ≤ 70 then some (n - 55)
  else none

def escChar (e : Char) : Option Char :=
  if e = '"' then some '"'
  else if e = '\\' then some '\\'
  else if e = '/' then some '/'
  else if e = 'b' then some '\x08'
  else if e = 'f' then some '\x0c'
  else if e = 'n' then some '\n'
  else if e = 'r' then some '\r'
  else if e = 't' then some '\t'
  else none

/-- Body of a JSON string after the opening quote; strict mode refuses
unescaped control characters. -/
def pStrChars : Nat → List Char → Option (List Char × List Char)
  | 0, _ => none
  | fuel + 1, l =>
    match l with
    | [] => none
    | c :: cs =>
      if c = '"' then some ([], cs)
      else if c = '\\' then
        match cs with
        | [] => none
        | e :: cs2 =>
          if e = 'u' then
            match cs2 with
            | a :: b :: c3 :: d :: rest =>
              match hexVal a, hexVal b, hexVal c3, hexVal d with
              | some ha, some hb, some hc, some hd =>
                (pStrChars fuel rest).map
                  (fun pr => (Char.ofNat (((ha * 16 + hb) * 16 + hc) * 16 + hd) :: pr.1, pr.2))
              | _, _, _, _ => none
            | _ => none
          else
            match escChar e with
            | some ch => (pStrChars fuel cs2).map (fun pr => (ch :: pr.1, pr.2))
            | none => none
      else if c.toNat < 32 then none
      else (pStrChars fuel cs).map (fun pr => (c :: pr.1, pr.2))

def takeDigits : List Char → List Char × List Char
  | c :: cs =>
    if c.isDigit then
      let (d, r) := takeDigits cs
      (c :: d, r)
    else ([], c :: cs)
  | [] => ([], [])

/-- Optional fraction part `(\.\d+)?`: consumes nothing unless a dot is
followed by at least one digit. -/
def pFrac (l : List Char) : List Char × List Char :=
  match l with
  | '.' :: c :: cs =>
    if c.isDigit then
      let (ds, r) := takeDigits cs
      ('.' :: c :: ds, r)
    else ([], l)
  | _ => ([], l)

/-- Optional exponent part `([eE][-+]?\d+)?`. -/
def pExp (l : List Char) : List Char × List Char :=
  match l with
  | e :: rest =>
    if e = 'e' || e = 'E' then
      let sgnSplit : List Char × List Char :=
        match rest with
        | s :: t => if s = '+' || s = '-' then ([s], t) else ([], rest)
        | [] => ([], [])
      match sgnSplit.2 with
      | c :: cs =>
        if c.isDigit then
          let (ds, r) := takeDigits cs
          (e :: (sgnSplit.1 ++ c :: ds), r)
        else ([], l)
      | [] => ([], l)
    else ([], l)
  | [] => ([], [])

/-- JSON number: `-?(0|[1-9]\d*)(\.\d+)?([eE][-+]?\d+)?`, kept as a lexeme. -/
def pNumber (l : List Char) : Option (List Char × List Char) :=
  let negSplit : List Char × List Char :=
    match l with
    | '-' :: cs => (['-'], cs)
    | _ => ([], l)
  match negSplit.2 with
  | c :: cs =>
    if c = '0' then
      let (f, r1) := pFrac cs
      let (e, r2) := pExp r1
      some (negSplit.1 ++ c :: (f ++ e), r2)
    else if c.isDigit then
      let (ds, r0) := takeDigits cs
      let (f, r1) := pFrac r0
      let (e, r2) := pExp r1
      some (negSplit.1 ++ c :: (ds ++ f ++ e), r2)
    else none
  | [] => none

mutual

def pValue : Nat → List Char → Option (Json × List Char)
  | 0, _ => none
  | fuel + 1, l =>
    match skipWs l with
    | '{' :: cs => pMembers fuel [] true cs
    | '[' :: cs => pItems fuel [] true cs
    | '"' :: cs => (pStrChars fuel cs).map (fun pr => (Json.str ⟨pr.1⟩, pr.2))
    | 't' :: 'r' :: 'u' :: 'e' :: cs => some (Json.bool true, cs)
    | 'f' :: 'a' :: 'l' :: 's' :: 'e' :: cs => some (Json.bool false, cs)
    | 'n' :: 'u' :: 'l' :: 'l' :: cs => some (Json.null, cs)
    | c :: cs =>
      if c = '-' || c.isDigit then
        (pNumber (c :: cs)).map (fun pr => (Json.num ⟨pr.1⟩, pr.2))
      else none
    | [] => none

def pMembers : Nat → List (String × Json) → Bool → List Char →
    Option (Json × List Char)
  | 0, _, _, _ => none
  | fuel + 1, acc, isFirst, l =>
    match skipWs l with
    | '}' :: cs => if isFirst then some (Json.obj acc, cs) else none
    | '"' :: cs =>
      match pStrChars fuel cs with
      | some (kcs, rest) =>
        match skipWs rest with
        | ':' :: rest2 =>
          match pValue fuel rest2 with
          | some (v, rest3) =>
            match skipWs rest3 with
            | ',' :: rest4 => pMembers fuel (jset acc ⟨kcs⟩ v) false rest4
            | '}' :: rest4 => some (Json.obj (jset acc ⟨kcs⟩ v), rest4)
            | _ => none
          | none => none
        | _ => none
      | none => none
    | _ => none

def pItems : Nat → List Json → Bool → List Char → Option (Json × List Char)
  | 0, _, _, _ => none
  | fuel + 1, acc, isFirst, l =>
    match skipWs l with
    | ']' :: cs => if isFirst then some (Json.arr acc.reverse, cs) else none
    | l' =>
      match pValue fuel l' with
      | some (v, rest) =>
        match skipWs rest with
        | ',' :: rest' => pItems fuel (v :: acc) false rest'
        | ']' :: rest' => some (Json.arr (v :: acc).reverse, rest')
        | _ => none
      | none => none

end

/-- Model of `json.loads`: one complete JSON document, surrounding
whitespace allowed, `none` on `JSONDecodeError`. -/
def json_loads (s : String) : Option Json :=
  match pValue (2 * s.length + 4) s.data with
  | some (j, rest) => if skipWs rest = [] then some j else none
  | none => none

example : json_loads "\x7b\"error\":\"bad queue\"\x7d" =
    some (Json.obj [("error", Json.str "bad queue")]) := rfl

example : json_loads "\x7b\"messageId\":\"abc123\"\x7d" =
    some (Json.obj [("messageId", Json.str "abc123")]) := rfl

example : json_loads " \x7b \"a\" : [1, -2.5e3, true, null] , \"a\" : \"x\" \x7d " =
    some (Json.obj [("a", Json.str "x")]) := rfl

example : json_loads "not json" = none := rfl

example : json_loads "\x7b\"a\":1\x7d extra" = none := rfl

example : json_loads "[1,]" = none := rfl

example : json_loads "01" = none := rfl

example : json_loads "\"a\\u0041\\n\"" = some (Json.str "aA\n") := rfl

/-! ## HTTP layer (`requests`)

A response is observed through its status code, its `Content-Type` header
(`none` when the server sent none) and its decoded text. -/

structure HttpResponse where
  status : Nat
  content_type : Option String
  text : String

/-- `requests.Response.ok`: false exactly for 4xx and 5xx status codes. -/
def respOk (r : HttpResponse) : Bool := !(400 ≤ r.status && r.status < 600)

/-- `needle` begins `l`. -/
def isPre (needle l : List Char) : Bool :=
  match needle, l with
  | [], _ => true
  | _ :: _, [] => false
  | a :: as_, b :: bs => a = b && isPre as_ bs

/-- `needle` occurs somewhere in `hay`. -/
def hasSub (needle : List Char) : List Char → Bool
  | [] => needle.isEmpty
  | c :: t => isPre needle (c :: t) || hasSub needle t

/-- Python substring test `needle in hay`. -/
def strContains (hay needle : String) : Bool := hasSub needle.data hay.data

/-! ## Header dictionaries (Python `dict[str, str]`) -/

def dget (m : List (String × String)) (k : String) : Option String :=
  match m with
  | [] => none
  | (k', v) :: t => if k' = k then some v else dget t k

/-- Python `dict` assignment `d[k] = v`. -/
def hset (m : List (String × String)) (k v : String) : List (String × String) :=
  if (dget m k).isSome then m.map (fun p => if p.1 = k then (k, v) else p)
  else m ++ [(k, v)]

/-- Python `d.update(other)`: each entry of `other` assigned in order. -/
def dictUpdate (m other : List (String × String)) : List (String × String) :=
  other.foldl (fun acc p => hset acc p.1 p.2) m

/-- Value the entry for `k` ends up with after `update`: the last
occurrence in the update list. -/
def lastVal (other : List (String × String)) (k : String) : Option String :=
  dget other.reverse k

/-! ## Python truthiness of optional arguments -/

/-- `if x:` for an `Optional[str]`: `None` and `""` are falsy. -/
def optStrTruthy (o : Option String) : Bool :=
  match o with
  | some s => !(s = "")
  | none => false

/-- `x or y` on `Optional[str]` operands. -/
def pyStrOr (a b : Option String) : Option String :=
  if optStrTruthy a then a else b

/-- `x or d` for `Optional[int] x` and a literal `d`: `None` and `0` are
falsy. -/
def pyIntOr (o : Option Int) (d : Int) : Int :=
  match o with
  | some t => if t = 0 then d else t
  | none => d

/-- `if headers:` for an `Optional[dict]`: `None` and `{}` are falsy. -/
def extraTruthy (o : Option (List (String × String))) : Bool :=
  match o with
  | some l => !l.isEmpty
  | none => false

/-! ## `HttpToEmsClient.send` and friends -/

/-- Arguments of `HttpToEmsClient.send`, with the source's defaults. -/
structure SendArgs where
  jms_url : String
  user : String
  queue : String
  body : String := ""
  password : Option String := none
  reply_queue : Option String := none
  publish_only : Bool := false
  timeout_ms : Option Int := none
  correlation_id : Option String := none
  headers : Option (List (String × String)) := none
  use_json : Bool := true

/-- The fixed part of the header dictionary `req_headers` that `send`
builds (lines 70-89 of `http_to_ems_client.py`), before the caller's
extra headers are applied. -/
def reqHeadersBase (a : SendArgs) : List (String × String) :=
  let h0 := [("JMS-URL", a.jms_url), ("JMS-USR", a.user), ("JMS-QU1", a.queue)]
  let h1 := if optStrTruthy a.password then hset h0 "JMS-PSW" (a.password.getD "") else h0
  let h2 :=
    if a.publish_only then hset h1 "JMS-PUBLISH-ONLY" "YES"
    else
      let hq := if optStrTruthy a.reply_queue then hset h1 "JMS-QU2" (a.reply_queue.getD "") else h1
      if a.timeout_ms.isSome then hset hq "JMS-TIMEOUT" (toString (a.timeout_ms.getD 0)) else hq
  let h3 :=
    if optStrTruthy a.correlation_id then hset h2 "JMS-CORRELATION-ID" (a.correlation_id.getD "")
    else h2
  if a.use_json then hset (hset h3 "Content-Type" "application/json") "Accept" "application/json"
  else h3

/-- The header dictionary `req_headers` that `send` transmits
(lines 70-92: the fixed part, then `req_headers.update(headers)` when
`headers` is truthy). -/
def reqHeaders (a : SendArgs) : List (String × String) :=
  if extraTruthy a.headers then dictUpdate (reqHeadersBase a) (a.headers.getD [])
  else reqHeadersBase a

/-- Result of a send operation. `message_id` keeps the decoded JSON value
(Python is dynamically typed); the constructor applies `message_id or ""`. -/
structure SendResult where
  status : Nat
  body : String
  message_id : Json

/-- `SendResult.__init__`: `self.message_id = message_id or ""`. -/
def mkSendResult (status : Nat) (body : String) (mid : Option Json) : SendResult :=
  { status := status, body := body,
    message_id :=
      match mid with
      | some m => if m.truthy then m else Json.str ""
      | none => Json.str "" }

/-- Exceptions the embedded code can raise. `bridgeError` is the library's
own `BridgeError(status_code, message)`; the others stand for the standard
`AttributeError`, `OSError`, `requests.HTTPError` and `JSONDecodeError`. -/
inductive PyException where
  | bridgeError (status_code : Nat) (message : Json)
  | attributeError
  | osError
  | httpError (status : Nat)
  | jsonDecodeError

/-- `HttpToEmsClient.send`, from the response on (lines 102-125): the
transmitted headers are `reqHeaders a`, and the bridge's answer is the
explicit `resp` argument. -/
def send (a : SendArgs) (resp : HttpResponse) : Except PyException SendResult :=
  let content_type := resp.content_type.getD "text/plain"
  let is_json := strContains content_type "application/json"
  let response_body := resp.text
  if !respOk resp then
    if is_json then
      match json_loads response_body with
      | some (Json.obj kvs) =>
        Except.error (PyException.bridgeError resp.status (jgetD kvs "error" (Json.str response_body)))
      | some _ => Except.error PyException.attributeError
      | none => Except.error (PyException.bridgeError resp.status (Json.str response_body))
    else Except.error (PyException.bridgeError resp.status (Json.str response_body))
  else if a.publish_only && is_json then
    match json_loads response_body with
    | some (Json.obj kvs) =>
      Except.ok (mkSendResult resp.status response_body (some (jgetD kvs "messageId" (Json.str ""))))
    | some _ => Except.error PyException.attributeError
    | none => Except.ok (mkSendResult resp.status response_body none)
  else Except.ok (mkSendResult resp.status response_body none)

/-- `HttpToEmsClient.publish`: `send` with `publish_only` forced true,
everything else passed through. -/
def publish (a : SendArgs) (resp : HttpResponse) : Except PyException SendResult :=
  send { a with publish_only := true } resp

/-- `HttpToEmsClient.request_reply`: `send` with `publish_only` forced
false and `timeout_ms=timeout_ms or 30000`. -/
def request_reply (a : SendArgs) (resp : HttpResponse) : Except PyException SendResult :=
  send { a with publish_only := false, timeout_ms := some (pyIntOr a.timeout_ms 30000) } resp

/-- `HttpToEmsClient.get_stats` (lines 171-184): `raise_for_status`, then
`resp.json()` when JSON was requested and the response `Content-Type`
contains `application/json` (header default `""` here), else the
`\x7b"raw": resp.text\x7d` fallback. -/
def get_stats (use_json : Bool) (resp : HttpResponse) : Except PyException Json :=
  if 400 ≤ resp.status && resp.status < 600 then
    Except.error (PyException.httpError resp.status)
  else if use_json && strContains (resp.content_type.getD "") "application/json" then
    match json_loads resp.text with
    | some j => Except.ok j
    | none => Except.error PyException.jsonDecodeError
  else Except.ok (Json.obj [("raw", Json.str resp.text)])

/-! ## CLI entry points

Each `main` is modelled from the point where `argparse` has succeeded;
`parser.error` (which prints a usage message and exits with code 2) is the
`usageError` outcome. The world supplies everything the process observes:
the `JMS_USR` environment variable, stdin, the file system, and the HTTP
response the bridge would return. -/

structure CliWorld where
  jms_usr_env : Option String
  stdin_isatty : Bool
  stdin_text : String
  file_content : String → Option String
  response : HttpResponse

/-- Observable end of a CLI invocation.
`success j` prints the value `j` on stdout and returns 0;
`handledError e` prints `Error: <message of e>` on stderr and returns 1;
`usageError m` is `parser.error m`: usage text on stderr, exit code 2;
`uncaught e` is an exception escaping `main`: traceback on stderr, the
interpreter exits with code 1. -/
inductive CliOutcome where
  | success (printed : Json)
  | handledError (e : PyException)
  | usageError (msg : String)
  | uncaught (e : PyException)

def exitCode : CliOutcome → Nat
  | .success _ => 0
  | .handledError _ => 1
  | .usageError _ => 2
  | .uncaught _ => 1

/-- Whether the outcome prints an `Error: <message>` line on stderr. -/
def printsErrorLine : CliOutcome → Bool
  | .handledError _ => true
  | _ => false

/-- Body resolution shared by the three sending CLIs:
`body = args.body; if args.file: body = open(args.file).read()
elif not body and not sys.stdin.isatty(): body = sys.stdin.read()`.
A failing `open` raises outside any `try`. -/
def resolveBody (bodyArg : String) (fileArg : Option String)
    (file_content : String → Option String) (isatty : Bool)
    (stdin_text : String) : Except PyException String :=
  if optStrTruthy fileArg then
    match file_content (fileArg.getD "") with
    | some c => Except.ok c
    | none => Except.error PyException.osError
  else if bodyArg = "" && !isatty then Except.ok stdin_text
  else Except.ok bodyArg

/-- `password = args.password or None; if password == "": password = None`. -/
def passwordOpt (p : String) : Option String :=
  if p = "" then none else some p

/-- Parsed arguments of `ems_send.py` with the parser's defaults
(`user` already holds the `JMS_USR` fallback applied by `argparse`). -/
structure EmsSendArgs where
  bridge : String := "http://localhost:8080"
  url : String
  user : Option String
  password : String := ""
  queue : String
  body : String := ""
  file : Option String := none
  publish_only : Bool := false
  reply_queue : Option String := none
  timeout : Int := 30000
  correlation_id : Option String := none
  plain : Bool := false

/-- The `client.send` keyword arguments `ems_send.main` assembles. -/
def emsSendClientArgs (a : EmsSendArgs) (user body : String) : SendArgs :=
  { jms_url := a.url, user := user, queue := a.queue, body := body,
    password := passwordOpt a.password, reply_queue := a.reply_queue,
    publish_only := a.publish_only, timeout_ms := some a.timeout,
    correlation_id := a.correlation_id, headers := none,
    use_json := !a.plain }

/-- `ems_send.main` after argument parsing: user check, body resolution
(outside the `try`), then the send; `except BridgeError` and
`except Exception` both print `Error: ...` and return 1. -/
def emsSendMain (a : EmsSendArgs) (w : CliWorld) : CliOutcome :=
  let user := pyStrOr a.user w.jms_usr_env
  if !optStrTruthy user then
    CliOutcome.usageError "--user is required (or set JMS_USR environment variable)"
  else
    match resolveBody a.body a.file w.file_content w.stdin_isatty w.stdin_text with
    | Except.error e => CliOutcome.uncaught e
    | Except.ok body =>
      match send (emsSendClientArgs a (user.getD "") body) w.response with
      | Except.ok r => CliOutcome.success (Json.str r.body)
      | Except.error e => CliOutcome.handledError e

/-- Parsed arguments of `publish.py`. -/
structure PublishArgs where
  bridge : String := "http://localhost:8080"
  url : String
  user : Option String
  password : String := ""
  queue : String
  body : String := ""
  file : Option String := none

/-- The `client.publish` keyword arguments `publish.main` assembles
(everything else keeps `send`'s defaults). -/
def publishClientArgs (a : PublishArgs) (user body : String) : SendArgs :=
  { jms_url := a.url, user := user, queue := a.queue, body := body,
    password := passwordOpt a.password }

/-- `publish.main`: only `BridgeError` is caught; success prints
`result.message_id or result.body`. -/
def publishMain (a : PublishArgs) (w : CliWorld) : CliOutcome :=
  let user := pyStrOr a.user w.jms_usr_env
  if !optStrTruthy user then
    CliOutcome.usageError "--user is required (or set JMS_USR)"
  else
    match resolveBody a.body a.file w.file_content w.stdin_isatty w.stdin_text with
    | Except.error e => CliOutcome.uncaught e
    | Except.ok body =>
      match publish (publishClientArgs a (user.getD "") body) w.response with
      | Except.ok r =>
        CliOutcome.success (if r.message_id.truthy then r.message_id else Json.str r.body)
      | Except.error (PyException.bridgeError st m) =>
        CliOutcome.handledError (PyException.bridgeError st m)
      | Except.error e => CliOutcome.uncaught e

/-- Parsed arguments of `request_reply.py`. -/
structure RequestReplyArgs where
  bridge : String := "http://localhost:8080"
  url : String
  user : Option String
  password : String := ""
  queue : String
  reply_queue : Option String := none
  body : String := ""
  file : Option String := none
  timeout : Int := 30000

/-- The `client.request_reply` keyword arguments `request_reply.main`
assembles. -/
def requestReplyClientArgs (a : RequestReplyArgs) (user body : String) : SendArgs :=
  { jms_url := a.url, user := user, queue := a.queue, body := body,
    password := passwordOpt a.password, reply_queue := a.reply_queue,
    timeout_ms := some a.timeout }

/-- `request_reply.main`: only `BridgeError` is caught; success prints
`result.body`. -/
def requestReplyMain (a : RequestReplyArgs) (w : CliWorld) : CliOutcome :=
  let user := pyStrOr a.user w.jms_usr_env
  if !optStrTruthy user then
    CliOutcome.usageError "--user is required (or set JMS_USR)"
  else
    match resolveBody a.body a.file w.file_content w.stdin_isatty w.stdin_text with
    | Except.error e => CliOutcome.uncaught e
    | Except.ok body =>
      match request_reply (requestReplyClientArgs a (user.getD "") body) w.response with
      | Except.ok r => CliOutcome.success (Json.str r.body)
      | Except.error (PyException.bridgeError st m) =>
        CliOutcome.handledError (PyException.bridgeError st m)
      | Except.error e => CliOutcome.uncaught e

/-- `get_stats.main`: `except Exception` catches everything; the printed
value is `stats["raw"]` in plain mode when present, else the whole
mapping (dumped as JSON). -/
def getStatsMain (plain : Bool) (w : CliWorld) : CliOutcome :=
  match get_stats (!plain) w.response with
  | Except.error e => CliOutcome.handledError e
  | Except.ok stats =>
    CliOutcome.success
      (if plain then
        match stats with
        | Json.obj kvs =>
          match jget kvs "raw" with
          | some v => v
          | none => stats
        | _ => stats
      else stats)

/-! ## Dictionary lemmas -/

theorem dget_append_isSome {xs : List (String × String)} {k v : String}
    (ys : List (String × String)) (h : dget xs k = some v) :
    dget (xs ++ ys) k = some v := by
  induction xs with
  | nil => simp [dget] at h
  | cons p t ih =>
    obtain ⟨k', v'⟩ := p
    by_cases hk : k' = k
    · simp [dget, hk] at h ⊢; exact h
    · simp [dget, hk] at h ⊢; exact ih h

theorem dget_append_none {xs : List (String × String)} {k : String}
    (ys : List (String × String)) (h : dget xs k = none) :
    dget (xs ++ ys) k = dget ys k := by
  induction xs with
  | nil => simp [dget]
  | cons p t ih =>
    obtain ⟨k', v'⟩ := p
    by_cases hk : k' = k
    · simp [dget, hk] at h
    · simp [dget, hk] at h ⊢; exact ih h

theorem dget_replace_self (m : List (String × String)) (k v : String)
    (h : (dget m k).isSome) :
    dget (m.map (fun p => if p.1 = k then (k, v) else p)) k = some v := by
  induction m with
  | nil => simp [dget] at h
  | cons p t ih =>
    obtain ⟨k', v'⟩ := p
    simp only [List.map_cons]
    by_cases hk : k' = k
    · rw [show (if (k', v').1 = k then (k, v) else (k', v')) = (k, v) from if_pos hk]
      simp [dget]
    · rw [show (if (k', v').1 = k then (k, v) else (k', v')) = (k', v') from if_neg hk]
      simp only [dget] at h ⊢
      rw [if_neg hk] at h ⊢
      exact ih h

theorem dget_replace_of_ne (m : List (String × String)) (k v q : String)
    (hq : q ≠ k) :
    dget (m.map (fun p => if p.1 = k then (k, v) else p)) q = dget m q := by
  induction m with
  | nil => simp [dget]
  | cons p t ih =>
    obtain ⟨k', v'⟩ := p
    simp only [List.map_cons]
    by_cases hk : k' = k
    · rw [show (if (k', v').1 = k then (k, v) else (k', v')) = (k, v) from if_pos hk]
      simp only [dget]
      rw [if_neg (fun h : k = q => hq h.symm), if_neg (fun h : k' = q => hq (hk ▸ h).symm)]
      exact ih
    · rw [show (if (k', v').1 = k then (k, v) else (k', v')) = (k', v') from if_neg hk]
      simp only [dget]
      by_cases hkq : k' = q
      · rw [if_pos hkq, if_pos hkq]
      · rw [if_neg hkq, if_neg hkq]
        exact ih

theorem dget_hset_self (m : List (String × String)) (k v : String) :
    dget (hset m k v) k = some v := by
  unfold hset
  by_cases hm : (dget m k).isSome
  · rw [if_pos hm]
    exact dget_replace_self m k v hm
  · rw [if_neg hm]
    rw [dget_append_none _ (Option.not_isSome_iff_eq_none.mp hm)]
    simp [dget]

theorem dget_hset_of_ne (m : List (String × String)) (k v q : String)
    (hq : q ≠ k) : dget (hset m k v) q = dget m q := by
  unfold hset
  by_cases hm : (dget m k).isSome
  · rw [if_pos hm]
    exact dget_replace_of_ne m k v q hq
  · rw [if_neg hm]
    cases hd : dget m q with
    | some v' => exact dget_append_isSome _ hd
    | none =>
      have hsingle : dget [(k, v)] q = none := by
        simp only [dget]
        rw [if_neg (fun h : k = q => hq h.symm)]
      rw [dget_append_none _ hd]
      exact hsingle

theorem dget_dictUpdate (m other : List (String × String)) (k : String) :
    dget (dictUpdate m other) k =
      match lastVal other k with
      | some v => some v
      | none => dget m k := by
  induction other generalizing m with
  | nil => simp [dictUpdate, lastVal, dget]
  | cons p t ih =>
    obtain ⟨k0, v0⟩ := p
    have hstep : dictUpdate m ((k0, v0) :: t) = dictUpdate (hset m k0 v0) t := rfl
    rw [hstep, ih]
    have hrev : ((k0, v0) :: t).reverse = t.reverse ++ [(k0, v0)] := by simp
    unfold lastVal
    rw [hrev]
    cases hlv : dget t.reverse k with
    | some v => rw [dget_append_isSome _ hlv]
    | none =>
      rw [dget_append_none _ hlv]
      by_cases hk : k0 = k
      · subst hk; simp [dget, dget_hset_self]
      · simp [dget, hk, dget_hset_of_ne m k0 v0 k (Ne.symm hk)]

/-! ## Header-set lemmas -/

theorem base_no_qu2 (a : SendArgs) (hp : a.publish_only = true) :
    dget (reqHeadersBase a) "JMS-QU2" = none := by
  unfold reqHeadersBase
  by_cases c1 : optStrTruthy a.password <;>
    by_cases c3 : optStrTruthy a.correlation_id <;>
    by_cases c4 : a.use_json = true <;>
    simp [hp, c1, c3, c4, dget_hset_of_ne, dget]

theorem base_no_timeout (a : SendArgs) (hp : a.publish_only = true) :
    dget (reqHeadersBase a) "JMS-TIMEOUT" = none := by
  unfold reqHeadersBase
  by_cases c1 : optStrTruthy a.password <;>
    by_cases c3 : optStrTruthy a.correlation_id <;>
    by_cases c4 : a.use_json = true <;>
    simp [hp, c1, c3, c4, dget_hset_of_ne, dget]

theorem base_no_pubonly (a : SendArgs) (hp : a.publish_only = false) :
    dget (reqHeadersBase a) "JMS-PUBLISH-ONLY" = none := by
  unfold reqHeadersBase
  by_cases c1 : optStrTruthy a.password <;>
    by_cases c6 : optStrTruthy a.reply_queue <;>
    by_cases c7 : a.timeout_ms.isSome = true <;>
    by_cases c3 : optStrTruthy a.correlation_id <;>
    by_cases c4 : a.use_json = true <;>
    simp [hp, c1, c6, c7, c3, c4, dget_hset_of_ne, dget]

/-- Absence of a key in the transmitted headers follows from its absence
in the fixed part and in the caller's extra headers. -/
theorem reqHeaders_dget_none (a : SendArgs) (k : String)
    (hbase : dget (reqHeadersBase a) k = none)
    (hextra : ∀ hs, a.headers = some hs → lastVal hs k = none) :
    dget (reqHeaders a) k = none := by
  unfold reqHeaders
  cases hh : a.headers with
  | none => simp [extraTruthy, hbase]
  | some hs =>
    have hl := hextra hs hh
    by_cases c5 : extraTruthy (some hs)
    · rw [if_pos c5, Option.getD_some, dget_dictUpdate, hl]
      exact hbase
    · rw [if_neg c5]
      exact hbase

/-! ## Claims -/

/-- Concrete `send` arguments for counterexamples/witnesses: a
publish-only call whose extra headers smuggle in `JMS-QU2`. -/
def qu2ExtraArgs : SendArgs :=
  { jms_url := "tcp://localhost:7222", user := "admin", queue := "queue.req",
    publish_only := true, headers := some [("JMS-QU2", "queue.reply")] }

/-- C3 counterexample: with `publish_only=true` but caller extra headers
containing `JMS-QU2`, the transmitted header set does contain `JMS-QU2`,
so "never contains ... regardless of ... extra headers arguments" fails. -/
theorem claim_C3_counterexample :
    dget (reqHeaders qu2ExtraArgs) "JMS-QU2" = some "queue.reply" ∧
    dget (reqHeaders qu2ExtraArgs) "JMS-QU2" ≠ none := by
  refine ⟨rfl, ?_⟩
  intro h
  rw [show dget (reqHeaders qu2ExtraArgs) "JMS-QU2" = some "queue.reply" from rfl] at h
  exact Option.noConfusion h

/-- A publish-only call with reply queue and timeout set and no extra
headers. -/
def pubOnlyArgs : SendArgs :=
  { jms_url := "tcp://h", user := "u", queue := "q", publish_only := true,
    reply_queue := some "queue.reply", timeout_ms := some 5000 }

/-- C3 amended: with `publish_only=true` the transmitted headers contain
neither `JMS-QU2` nor `JMS-TIMEOUT`, for every `reply_queue` and
`timeout_ms` value, provided the caller-supplied extra headers (if any)
do not themselves carry that key. -/
theorem claim_C3 (a : SendArgs) (hp : a.publish_only = true)
    (hq2 : ∀ hs, a.headers = some hs → lastVal hs "JMS-QU2" = none)
    (hto : ∀ hs, a.headers = some hs → lastVal hs "JMS-TIMEOUT" = none) :
    dget (reqHeaders a) "JMS-QU2" = none ∧
    dget (reqHeaders a) "JMS-TIMEOUT" = none :=
  ⟨reqHeaders_dget_none a _ (base_no_qu2 a hp) hq2,
   reqHeaders_dget_none a _ (base_no_timeout a hp) hto⟩

/-- C3 witness: a publish-only call with a reply queue, a timeout and no
extra headers transmits neither `JMS-QU2` nor `JMS-TIMEOUT`. -/
theorem claim_C3_witness :
    dget (reqHeaders pubOnlyArgs) "JMS-QU2" = none ∧
    dget (reqHeaders pubOnlyArgs) "JMS-TIMEOUT" = none :=
  claim_C3 pubOnlyArgs rfl (fun _ h => Option.noConfusion h)
    (fun _ h => Option.noConfusion h)

/-- A request-reply call whose extra headers smuggle in
`JMS-PUBLISH-ONLY`. -/
def pubOnlyExtraArgs : SendArgs :=
  { jms_url := "tcp://localhost:7222", user := "admin", queue := "queue.req",
    publish_only := false, headers := some [("JMS-PUBLISH-ONLY", "YES")] }

/-- C8 counterexample: with `publish_only=false` but caller extra headers
containing `JMS-PUBLISH-ONLY`, the transmitted set does contain it, so
"for all inputs" fails. -/
theorem claim_C8_counterexample :
    dget (reqHeaders pubOnlyExtraArgs) "JMS-PUBLISH-ONLY" = some "YES" ∧
    dget (reqHeaders pubOnlyExtraArgs) "JMS-PUBLISH-ONLY" ≠ none := by
  refine ⟨rfl, ?_⟩
  intro h
  rw [show dget (reqHeaders pubOnlyExtraArgs) "JMS-PUBLISH-ONLY" = some "YES" from rfl] at h
  exact Option.noConfusion h

/-- A request-reply call with reply queue and timeout set and no extra
headers. -/
def reqReplyArgs : SendArgs :=
  { jms_url := "tcp://h", user := "u", queue := "q", publish_only := false,
    reply_queue := some "queue.reply", timeout_ms := some 5000 }

/-- C8 amended: with `publish_only=false`, the transmitted headers do not
contain `JMS-PUBLISH-ONLY`, provided the caller-supplied extra headers
(if any) do not themselves carry that key. -/
theorem claim_C8 (a : SendArgs) (hp : a.publish_only = false)
    (hext : ∀ hs, a.headers = some hs → lastVal hs "JMS-PUBLISH-ONLY" = none) :
    dget (reqHeaders a) "JMS-PUBLISH-ONLY" = none :=
  reqHeaders_dget_none a _ (base_no_pubonly a hp) hext

/-- C8 witness: a request-reply call with reply queue and timeout and no
extra headers transmits no `JMS-PUBLISH-ONLY` header. -/
theorem claim_C8_witness :
    dget (reqHeaders reqReplyArgs) "JMS-PUBLISH-ONLY" = none :=
  claim_C8 reqReplyArgs rfl (fun _ h => Option.noConfusion h)

/-- C10: nonempty caller-supplied extra headers are applied after the fixed
JMS headers via dict update, so for every key the last caller-supplied
value is what the transmitted header set carries, replacing any fixed
header of the same name — including `JMS-QU2`/`JMS-TIMEOUT` under
`publish_only=true`. -/
theorem claim_C10 (a : SendArgs) (hs : List (String × String)) (k v : String)
    (hh : a.headers = some hs) (hne : hs ≠ [])
    (hlast : lastVal hs k = some v) :
    dget (reqHeaders a) k = some v := by
  have htr : extraTruthy a.headers = true := by
    rw [hh]
    cases hs with
    | nil => exact absurd rfl hne
    | cons p t => simp [extraTruthy]
  unfold reqHeaders
  rw [if_pos htr, hh, Option.getD_some, dget_dictUpdate, hlast]

/-- C10 witness: with `publish_only=true`, extra headers do introduce
`JMS-QU2` into the transmitted set. -/
theorem claim_C10_witness :
    dget (reqHeaders qu2ExtraArgs) "JMS-QU2" = some "queue.reply" :=
  claim_C10 qu2ExtraArgs [("JMS-QU2", "queue.reply")] "JMS-QU2" "queue.reply"
    rfl (by simp) rfl

/-- C7: `request_reply` is `send` with `publish_only` forced false and the
`or`-defaulted timeout (30000 when unspecified), and `publish` is `send`
with `publish_only` forced true. -/
theorem claim_C7 (a : SendArgs) (resp : HttpResponse) :
    request_reply a resp =
      send { a with publish_only := false,
                    timeout_ms := some (pyIntOr a.timeout_ms 30000) } resp ∧
    (a.timeout_ms = none →
      request_reply a resp =
        send { a with publish_only := false, timeout_ms := some 30000 } resp) ∧
    publish a resp = send { a with publish_only := true } resp := by
  refine ⟨rfl, fun h => ?_, rfl⟩
  simp [request_reply, pyIntOr, h]

/-- A plain pong response. -/
def pongResp : HttpResponse :=
  { status := 200, content_type := some "text/plain", text := "pong" }

/-- An unspecified-timeout request-reply style call. -/
def defTimeoutArgs : SendArgs :=
  { jms_url := "tcp://h", user := "u", queue := "q" }

/-- C7 witness at a concrete unspecified-timeout call. -/
theorem claim_C7_witness :
    request_reply defTimeoutArgs pongResp =
      send { defTimeoutArgs with publish_only := false,
                                 timeout_ms := some 30000 } pongResp :=
  (claim_C7 defTimeoutArgs pongResp).2.1 rfl

/-- The error body used by the spec's own example. -/
def errBody : String := "\x7b\"error\":\"bad queue\"\x7d"

/-- A 500 response carrying the JSON error envelope but a plain-text
`Content-Type`. -/
def plainCtErrResp : HttpResponse :=
  { status := 500, content_type := some "text/plain", text := errBody }

/-- A 304 plain-text response, a non-2xx status below 400. -/
def notModifiedResp : HttpResponse :=
  { status := 304, content_type := some "text/plain", text := "cached" }

/-- C1 counterexample, refuting the claim in two ways. First, on a non-2xx
response whose body decodes as a JSON object containing an `error` field
but whose `Content-Type` is not JSON, the raised `BridgeError` carries
the raw text, not the `error` field, so the claim's message rule fails.
Second, a non-2xx 304 response raises no `BridgeError` at all: `send`
returns normally, so the claim's "non-2xx raises" rule also fails. -/
theorem claim_C1_counterexample :
    send defTimeoutArgs plainCtErrResp =
      Except.error (PyException.bridgeError 500 (Json.str errBody)) ∧
    json_loads errBody = some (Json.obj [("error", Json.str "bad queue")]) ∧
    errBody ≠ "bad queue" ∧
    send defTimeoutArgs notModifiedResp =
      Except.ok { status := 304, body := "cached", message_id := Json.str "" } := by
  exact ⟨rfl, rfl, by decide, rfl⟩

/-- C1 amended: on a response with status in [400,600) (`requests`'
notion of a failed response), `send` raises `BridgeError` carrying the
HTTP status, with the `error` field of the decoded JSON object when the
`Content-Type` contains `application/json` and the body decodes as an
object (raw text as the in-object default), and with the raw response
text when the `Content-Type` is not JSON or the body fails to decode;
on any status outside [400,600) — including non-2xx 1xx/3xx statuses —
`send` never raises `BridgeError` (it takes the success path, which can
still raise `AttributeError` when a publish-only JSON response body
decodes to a non-object). -/
theorem claim_C1 (a : SendArgs) (resp : HttpResponse) :
    (400 ≤ resp.status → resp.status < 600 →
      (∀ kvs,
        strContains (resp.content_type.getD "text/plain") "application/json" = true →
        json_loads resp.text = some (Json.obj kvs) →
        send a resp =
          Except.error (PyException.bridgeError resp.status
            (jgetD kvs "error" (Json.str resp.text)))) ∧
      (strContains (resp.content_type.getD "text/plain") "application/json" = false →
        send a resp =
          Except.error (PyException.bridgeError resp.status (Json.str resp.text))) ∧
      (json_loads resp.text = none →
        send a resp =
          Except.error (PyException.bridgeError resp.status (Json.str resp.text)))) ∧
    (resp.status < 400 ∨ 600 ≤ resp.status →
      ∀ st m, send a resp ≠ Except.error (PyException.bridgeError st m)) := by
  constructor
  · intro h4 h6
    have hok : respOk resp = false := by
      simp [respOk, h4, h6]
    refine ⟨fun kvs hct hjl => ?_, fun hct => ?_, fun hjl => ?_⟩
    · simp [send, hok, hct, hjl]
    · simp [send, hok, hct]
    · cases hct : strContains (resp.content_type.getD "text/plain") "application/json" with
      | true => simp [send, hok, hct, hjl]
      | false => simp [send, hok, hct]
  · intro hst st m h
    have hok : respOk resp = true := by
      rcases hst with h1 | h2 <;> simp [respOk] <;> omega
    cases hpj : (a.publish_only &&
        strContains (resp.content_type.getD "text/plain") "application/json") with
    | false => simp [send, hok, hpj] at h
    | true =>
      cases hjl : json_loads resp.text with
      | none => simp [send, hok, hpj, hjl] at h
      | some j => cases j <;> simp [send, hok, hpj, hjl] at h

/-- A 503 response with the JSON error envelope and a JSON content type. -/
def jsonCtErrResp : HttpResponse :=
  { status := 503, content_type := some "application/json", text := errBody }

/-- C1 witness: the spec's example, with a JSON `Content-Type`. -/
theorem claim_C1_witness :
    send defTimeoutArgs jsonCtErrResp =
      Except.error (PyException.bridgeError 503 (Json.str "bad queue")) :=
  ((claim_C1 defTimeoutArgs jsonCtErrResp).1 (by decide) (by decide)).1
    [("error", Json.str "bad queue")] (by decide) rfl

/-- C2: on a 2xx JSON-content-type response to a publish-only call, the
result's `message_id` is the object's string `messageId` field (empty when
absent), the raw body is preserved, and a JSON decode failure is non-fatal
and yields an empty `message_id`. -/
theorem claim_C2 (a : SendArgs) (resp : HttpResponse)
    (h2 : 200 ≤ resp.status) (h3 : resp.status < 300)
    (hp : a.publish_only = true)
    (hct : strContains (resp.content_type.getD "text/plain") "application/json" = true) :
    (∀ kvs s, json_loads resp.text = some (Json.obj kvs) →
      jget kvs "messageId" = some (Json.str s) →
      send a resp =
        Except.ok { status := resp.status, body := resp.text,
                    message_id := Json.str s }) ∧
    (∀ kvs, json_loads resp.text = some (Json.obj kvs) →
      jget kvs "messageId" = none →
      send a resp =
        Except.ok { status := resp.status, body := resp.text,
                    message_id := Json.str "" }) ∧
    (json_loads resp.text = none →
      send a resp =
        Except.ok { status := resp.status, body := resp.text,
                    message_id := Json.str "" }) := by
  have hok : respOk resp = true := by
    simp only [respOk]
    have : ¬ 400 ≤ resp.status := by omega
    simp [this]
  refine ⟨fun kvs s hjl hmid => ?_, fun kvs hjl hmid => ?_, fun hjl => ?_⟩
  · by_cases hs : s = ""
    · subst hs
      simp [send, hok, hct, hjl, hp, mkSendResult, jgetD, hmid, Json.truthy]
    · simp [send, hok, hct, hjl, hp, mkSendResult, jgetD, hmid, Json.truthy, hs]
  · simp [send, hok, hct, hjl, hp, mkSendResult, jgetD, hmid, Json.truthy]
  · simp [send, hok, hct, hjl, hp, mkSendResult]

/-- A 2xx JSON response carrying a message id. -/
def midResp : HttpResponse :=
  { status := 200, content_type := some "application/json",
    text := "\x7b\"messageId\":\"abc123\"\x7d" }

/-- A publish-only call. -/
def pubArgs : SendArgs :=
  { jms_url := "tcp://h", user := "u", queue := "q", publish_only := true }

/-- C2 witness: the spec's `messageId == "abc123"` example. -/
theorem claim_C2_witness :
    send pubArgs midResp =
      Except.ok { status := 200, body := "\x7b\"messageId\":\"abc123\"\x7d",
                  message_id := Json.str "abc123" } :=
  (claim_C2 pubArgs midResp (by decide) (by decide) rfl (by decide)).1
    [("messageId", Json.str "abc123")] "abc123" rfl rfl

/-- A 304 plain-text response. -/
def cachedResp : HttpResponse :=
  { status := 304, content_type := some "text/plain", text := "cached" }

/-- C6 counterexample: a 304 response is non-2xx, yet `get_stats` raises
nothing (`raise_for_status` only raises for 4xx/5xx) and returns the raw
fallback mapping. -/
theorem claim_C6_counterexample :
    get_stats true cachedResp = Except.ok (Json.obj [("raw", Json.str "cached")]) ∧
    (∀ e, get_stats true cachedResp ≠ Except.error e) := by
  refine ⟨rfl, fun e h => ?_⟩
  rw [show get_stats true cachedResp =
    Except.ok (Json.obj [("raw", Json.str "cached")]) from rfl] at h
  exact Except.noConfusion h

/-- C6 amended: `get_stats` raises the HTTP library's standard error (not
`BridgeError`) exactly on 4xx/5xx; on a sub-400 status it returns the
parsed JSON when JSON was requested, the `Content-Type` is JSON and the
body parses (a parse failure raises the JSON decode error), and the
`\x7b"raw": text\x7d` mapping otherwise. -/
theorem claim_C6 (use_json : Bool) (resp : HttpResponse) :
    (400 ≤ resp.status → resp.status < 600 →
      get_stats use_json resp = Except.error (PyException.httpError resp.status)) ∧
    (resp.status < 400 →
      (use_json = true →
        strContains (resp.content_type.getD "") "application/json" = true →
        (∀ j, json_loads resp.text = some j → get_stats use_json resp = Except.ok j) ∧
        (json_loads resp.text = none →
          get_stats use_json resp = Except.error PyException.jsonDecodeError)) ∧
      ((use_json = false ∨
          strContains (resp.content_type.getD "") "application/json" = false) →
        get_stats use_json resp =
          Except.ok (Json.obj [("raw", Json.str resp.text)]))) := by
  refine ⟨fun h4 h6 => ?_, fun hlt => ⟨fun hu hct => ⟨fun j hjl => ?_, fun hjl => ?_⟩,
    fun hrest => ?_⟩⟩
  · simp [get_stats, h4, h6]
  · have hge : ¬ 400 ≤ resp.status := by omega
    simp [get_stats, hge, hu, hct, hjl]
  · have hge : ¬ 400 ≤ resp.status := by omega
    simp [get_stats, hge, hu, hct, hjl]
  · have hge : ¬ 400 ≤ resp.status := by omega
    cases hrest with
    | inl hu => simp [get_stats, hge, hu]
    | inr hct =>
      cases hu : use_json with
      | true => simp [get_stats, hge, hu, hct]
      | false => simp [get_stats, hge, hu]

/-- A 200 JSON metrics response. -/
def statsResp : HttpResponse :=
  { status := 200, content_type := some "application/json",
    text := "\x7b\"queued\":5\x7d" }

/-- C6 witness: parsed-mapping case at a concrete 200 JSON response. -/
theorem claim_C6_witness :
    get_stats true statsResp = Except.ok (Json.obj [("queued", Json.num "5")]) :=
  (((claim_C6 true statsResp).2 (by decide)).1 rfl (by decide)).1
    (Json.obj [("queued", Json.num "5")]) rfl

/-- C5: CLI body resolution precedence: a (truthy) `--file` wins over
`--body`; with no file and an empty body, piped stdin is read when the
terminal is not interactive; with an interactive terminal the body stays
empty. -/
theorem claim_C5 (bodyArg : String) (fileArg : Option String)
    (fc : String → Option String) (isatty : Bool) (stdin_text : String) :
    (∀ p c, fileArg = some p → p ≠ "" → fc p = some c →
      resolveBody bodyArg fileArg fc isatty stdin_text = Except.ok c) ∧
    (optStrTruthy fileArg = false → bodyArg = "" → isatty = false →
      resolveBody bodyArg fileArg fc isatty stdin_text = Except.ok stdin_text) ∧
    (optStrTruthy fileArg = false → bodyArg = "" → isatty = true →
      resolveBody bodyArg fileArg fc isatty stdin_text = Except.ok "") := by
  refine ⟨fun p c hp hpne hfc => ?_, fun hf hb ht => ?_, fun hf hb ht => ?_⟩
  · subst hp
    simp [resolveBody, optStrTruthy, hpne, hfc]
  · simp [resolveBody, hf, hb, ht]
  · simp [resolveBody, hf, hb, ht]

/-- C5 witness: file content wins over a literal `--body`; piped stdin is
used when both are absent; an interactive terminal leaves the body
empty. -/
theorem claim_C5_witness :
    resolveBody "literal" (some "message.json")
        (fun _ => some "FILE BODY") true "" = Except.ok "FILE BODY" ∧
    resolveBody "" none (fun _ => none) false "abc" = Except.ok "abc" ∧
    resolveBody "" none (fun _ => none) true "abc" = Except.ok "" :=
  ⟨(claim_C5 "literal" (some "message.json") (fun _ => some "FILE BODY") true "").1
      "message.json" "FILE BODY" rfl (by decide) rfl,
   (claim_C5 "" none (fun _ => none) false "abc").2.1 rfl rfl rfl,
   (claim_C5 "" none (fun _ => none) true "abc").2.2 rfl rfl rfl⟩

/-- C9: with `--user` absent and `JMS_USR` unset, each sending CLI ends in
the parser's usage error — exit code 2, hence non-zero — and the outcome
does not depend on any HTTP response, i.e. no HTTP call is attempted. -/
theorem claim_C9 (a : EmsSendArgs) (p : PublishArgs) (ra : RequestReplyArgs)
    (w : CliWorld) (ha : a.user = none) (hp : p.user = none)
    (hr : ra.user = none) (henv : w.jms_usr_env = none) :
    (∀ resp, emsSendMain a { w with response := resp } =
      CliOutcome.usageError "--user is required (or set JMS_USR environment variable)") ∧
    (∀ resp, publishMain p { w with response := resp } =
      CliOutcome.usageError "--user is required (or set JMS_USR)") ∧
    (∀ resp, requestReplyMain ra { w with response := resp } =
      CliOutcome.usageError "--user is required (or set JMS_USR)") ∧
    exitCode (emsSendMain a w) ≠ 0 ∧ exitCode (publishMain p w) ≠ 0 ∧
    exitCode (requestReplyMain ra w) ≠ 0 := by
  refine ⟨fun resp => ?_, fun resp => ?_, fun resp => ?_, ?_, ?_, ?_⟩ <;>
    simp [emsSendMain, publishMain, requestReplyMain, pyStrOr, optStrTruthy,
      ha, hp, hr, henv, exitCode]

/-- A concrete world with nothing set. -/
def bareWorld : CliWorld :=
  { jms_usr_env := none, stdin_isatty := true, stdin_text := "",
    file_content := fun _ => none,
    response := { status := 200, content_type := none, text := "" } }

/-- Concrete `ems_send` arguments with no user anywhere. -/
def noUserArgs : EmsSendArgs := { url := "tcp://h", user := none, queue := "q" }

/-- Concrete `publish` arguments with no user anywhere. -/
def noUserPubArgs : PublishArgs := { url := "tcp://h", user := none, queue := "q" }

/-- Concrete `request_reply` arguments with no user anywhere. -/
def noUserRRArgs : RequestReplyArgs := { url := "tcp://h", user := none, queue := "q" }

/-- C9 witness at the concrete no-user invocation. -/
theorem claim_C9_witness :
    emsSendMain noUserArgs { bareWorld with response := bareWorld.response } =
      CliOutcome.usageError "--user is required (or set JMS_USR environment variable)" :=
  (claim_C9 noUserArgs noUserPubArgs noUserRRArgs bareWorld rfl rfl rfl rfl).1
    bareWorld.response

/-- C4 counterexample: a missing user is an error, yet the process exits
with the parser's code 2, not 1, and prints a usage message rather than
an `Error:` line. -/
theorem claim_C4_counterexample :
    emsSendMain noUserArgs bareWorld =
      CliOutcome.usageError "--user is required (or set JMS_USR environment variable)" ∧
    exitCode (emsSendMain noUserArgs bareWorld) = 2 ∧
    exitCode (emsSendMain noUserArgs bareWorld) ≠ 1 ∧
    printsErrorLine (emsSendMain noUserArgs bareWorld) = false := by
  exact ⟨rfl, rfl, by decide, rfl⟩

/-- `resolveBody` can only fail with the file-open `OSError`. -/
theorem resolveBody_error (bodyArg : String) (fileArg : Option String)
    (fc : String → Option String) (isatty : Bool) (stdin_text : String)
    (e : PyException)
    (h : resolveBody bodyArg fileArg fc isatty stdin_text = Except.error e) :
    e = PyException.osError := by
  unfold resolveBody at h
  by_cases hf : optStrTruthy fileArg = true
  · rw [if_pos hf] at h
    cases hfc : fc (fileArg.getD "") <;> rw [hfc] at h
    · exact (Except.error.injEq _ _ ▸ h).symm ▸ rfl
    · exact Except.noConfusion h
  · rw [if_neg hf] at h
    split at h <;> exact Except.noConfusion h

/-- `ems_send.main` returns 0 exactly when the whole pipeline (user
resolution, body resolution, the bridge call) succeeds. -/
theorem emsSendMain_exit_zero (a : EmsSendArgs) (w : CliWorld) :
    exitCode (emsSendMain a w) = 0 ↔
      optStrTruthy (pyStrOr a.user w.jms_usr_env) = true ∧
      ∃ b r,
        resolveBody a.body a.file w.file_content w.stdin_isatty w.stdin_text =
          Except.ok b ∧
        send (emsSendClientArgs a ((pyStrOr a.user w.jms_usr_env).getD "") b)
          w.response = Except.ok r := by
  by_cases hu : optStrTruthy (pyStrOr a.user w.jms_usr_env) = true
  · cases hrb : resolveBody a.body a.file w.file_content w.stdin_isatty w.stdin_text with
    | error e => simp [emsSendMain, hu, hrb, exitCode]
    | ok b =>
      cases hsend : send (emsSendClientArgs a ((pyStrOr a.user w.jms_usr_env).getD "") b)
          w.response with
      | error e => simp [emsSendMain, hu, hrb, hsend, exitCode]
      | ok r => simp [emsSendMain, hu, hrb, hsend, exitCode]
  · simp [emsSendMain, hu, exitCode]

/-- `publish.main` returns 0 exactly when the whole pipeline succeeds. -/
theorem publishMain_exit_zero (pa : PublishArgs) (w : CliWorld) :
    exitCode (publishMain pa w) = 0 ↔
      optStrTruthy (pyStrOr pa.user w.jms_usr_env) = true ∧
      ∃ b r,
        resolveBody pa.body pa.file w.file_content w.stdin_isatty w.stdin_text =
          Except.ok b ∧
        publish (publishClientArgs pa ((pyStrOr pa.user w.jms_usr_env).getD "") b)
          w.response = Except.ok r := by
  by_cases hu : optStrTruthy (pyStrOr pa.user w.jms_usr_env) = true
  · cases hrb : resolveBody pa.body pa.file w.file_content w.stdin_isatty w.stdin_text with
    | error e => simp [publishMain, hu, hrb, exitCode]
    | ok b =>
      cases hsend : publish (publishClientArgs pa ((pyStrOr pa.user w.jms_usr_env).getD "") b)
          w.response with
      | error e =>
        cases e <;> simp [publishMain, hu, hrb, hsend, exitCode]
      | ok r => simp [publishMain, hu, hrb, hsend, exitCode]
  · simp [publishMain, hu, exitCode]

/-- `request_reply.main` returns 0 exactly when the whole pipeline
succeeds. -/
theorem requestReplyMain_exit_zero (ra : RequestReplyArgs) (w : CliWorld) :
    exitCode (requestReplyMain ra w) = 0 ↔
      optStrTruthy (pyStrOr ra.user w.jms_usr_env) = true ∧
      ∃ b r,
        resolveBody ra.body ra.file w.file_content w.stdin_isatty w.stdin_text =
          Except.ok b ∧
        request_reply
          (requestReplyClientArgs ra ((pyStrOr ra.user w.jms_usr_env).getD "") b)
          w.response = Except.ok r := by
  by_cases hu : optStrTruthy (pyStrOr ra.user w.jms_usr_env) = true
  · cases hrb : resolveBody ra.body ra.file w.file_content w.stdin_isatty w.stdin_text with
    | error e => simp [requestReplyMain, hu, hrb, exitCode]
    | ok b =>
      cases hsend : request_reply
          (requestReplyClientArgs ra ((pyStrOr ra.user w.jms_usr_env).getD "") b)
          w.response with
      | error e =>
        cases e <;> simp [requestReplyMain, hu, hrb, hsend, exitCode]
      | ok r => simp [requestReplyMain, hu, hrb, hsend, exitCode]
  · simp [requestReplyMain, hu, exitCode]

/-- `get_stats.main` returns 0 exactly when the stats call succeeds. -/
theorem getStatsMain_exit_zero (plain : Bool) (w : CliWorld) :
    exitCode (getStatsMain plain w) = 0 ↔
      ∃ v, get_stats (!plain) w.response = Except.ok v := by
  cases hs : get_stats (!plain) w.response with
  | error e => simp [getStatsMain, hs, exitCode]
  | ok stats => simp [getStatsMain, hs, exitCode]

/-- In `ems_send.main` only the file-open error escapes the `try`. -/
theorem emsSendMain_uncaught (a : EmsSendArgs) (w : CliWorld) (e : PyException)
    (h : emsSendMain a w = CliOutcome.uncaught e) : e = PyException.osError := by
  by_cases hu : optStrTruthy (pyStrOr a.user w.jms_usr_env) = true
  · cases hrb : resolveBody a.body a.file w.file_content w.stdin_isatty w.stdin_text with
    | error e' =>
      simp [emsSendMain, hu, hrb] at h
      exact h ▸ resolveBody_error _ _ _ _ _ _ hrb
    | ok b =>
      cases hsend : send (emsSendClientArgs a ((pyStrOr a.user w.jms_usr_env).getD "") b)
          w.response <;> simp [emsSendMain, hu, hrb, hsend] at h
  · simp [emsSendMain, hu] at h

/-- `publish.main` prints the `Error:` line only for `BridgeError`. -/
theorem publishMain_handled (pa : PublishArgs) (w : CliWorld) (e : PyException)
    (h : publishMain pa w = CliOutcome.handledError e) :
    ∃ st m, e = PyException.bridgeError st m := by
  by_cases hu : optStrTruthy (pyStrOr pa.user w.jms_usr_env) = true
  · cases hrb : resolveBody pa.body pa.file w.file_content w.stdin_isatty w.stdin_text with
    | error e' => simp [publishMain, hu, hrb] at h
    | ok b =>
      cases hsend : publish (publishClientArgs pa ((pyStrOr pa.user w.jms_usr_env).getD "") b)
          w.response with
      | ok r => simp [publishMain, hu, hrb, hsend] at h
      | error e' =>
        cases e' <;> simp [publishMain, hu, hrb, hsend] at h
        rename_i st m
        exact ⟨st, m, h.symm⟩
  · simp [publishMain, hu] at h

/-- `request_reply.main` prints the `Error:` line only for `BridgeError`. -/
theorem requestReplyMain_handled (ra : RequestReplyArgs) (w : CliWorld)
    (e : PyException)
    (h : requestReplyMain ra w = CliOutcome.handledError e) :
    ∃ st m, e = PyException.bridgeError st m := by
  by_cases hu : optStrTruthy (pyStrOr ra.user w.jms_usr_env) = true
  · cases hrb : resolveBody ra.body ra.file w.file_content w.stdin_isatty w.stdin_text with
    | error e' => simp [requestReplyMain, hu, hrb] at h
    | ok b =>
      cases hsend : request_reply
          (requestReplyClientArgs ra ((pyStrOr ra.user w.jms_usr_env).getD "") b)
          w.response with
      | ok r => simp [requestReplyMain, hu, hrb, hsend] at h
      | error e' =>
        cases e' <;> simp [requestReplyMain, hu, hrb, hsend] at h
        rename_i st m
        exact ⟨st, m, h.symm⟩
  · simp [requestReplyMain, hu] at h

/-- C4 amended: each CLI exits 0 exactly when its pipeline succeeds, and
every outcome that prints an `Error:` line exits 1; but not every error
does so: usage errors exit 2 via the argument parser, file-open errors
escape the `try` in every sender, and `publish`/`request_reply` let any
non-`BridgeError` failure escape as an uncaught exception (traceback,
exit 1, no `Error:` line). -/
theorem claim_C4 (a : EmsSendArgs) (pa : PublishArgs) (ra : RequestReplyArgs)
    (plain : Bool) (w : CliWorld) :
    (exitCode (emsSendMain a w) = 0 ↔
      optStrTruthy (pyStrOr a.user w.jms_usr_env) = true ∧
      ∃ b r,
        resolveBody a.body a.file w.file_content w.stdin_isatty w.stdin_text =
          Except.ok b ∧
        send (emsSendClientArgs a ((pyStrOr a.user w.jms_usr_env).getD "") b)
          w.response = Except.ok r) ∧
    (exitCode (publishMain pa w) = 0 ↔
      optStrTruthy (pyStrOr pa.user w.jms_usr_env) = true ∧
      ∃ b r,
        resolveBody pa.body pa.file w.file_content w.stdin_isatty w.stdin_text =
          Except.ok b ∧
        publish (publishClientArgs pa ((pyStrOr pa.user w.jms_usr_env).getD "") b)
          w.response = Except.ok r) ∧
    (exitCode (requestReplyMain ra w) = 0 ↔
      optStrTruthy (pyStrOr ra.user w.jms_usr_env) = true ∧
      ∃ b r,
        resolveBody ra.body ra.file w.file_content w.stdin_isatty w.stdin_text =
          Except.ok b ∧
        request_reply
          (requestReplyClientArgs ra ((pyStrOr ra.user w.jms_usr_env).getD "") b)
          w.response = Except.ok r) ∧
    (exitCode (getStatsMain plain w) = 0 ↔
      ∃ v, get_stats (!plain) w.response = Except.ok v) ∧
    (∀ e, emsSendMain a w = CliOutcome.uncaught e → e = PyException.osError) ∧
    (∀ e, publishMain pa w = CliOutcome.handledError e →
      ∃ st m, e = PyException.bridgeError st m) ∧
    (∀ e, requestReplyMain ra w = CliOutcome.handledError e →
      ∃ st m, e = PyException.bridgeError st m) ∧
    (∀ o : CliOutcome, printsErrorLine o = true → exitCode o = 1) ∧
    (∀ m, exitCode (CliOutcome.usageError m) = 2) :=
  ⟨emsSendMain_exit_zero a w, publishMain_exit_zero pa w,
   requestReplyMain_exit_zero ra w, getStatsMain_exit_zero plain w,
   fun e h => emsSendMain_uncaught a w e h,
   fun e h => publishMain_handled pa w e h,
   fun e h => requestReplyMain_handled ra w e h,
   fun o h => by cases o <;> simp [printsErrorLine, exitCode] at h ⊢,
   fun _ => rfl⟩

/-- A world where everything a CLI invocation needs goes right. -/
def okWorld : CliWorld :=
  { jms_usr_env := none, stdin_isatty := true, stdin_text := "",
    file_content := fun _ => none,
    response := { status := 200, content_type := none, text := "PONG" } }

/-- A complete concrete `ems_send` invocation. -/
def okArgs : EmsSendArgs := { url := "tcp://h", user := some "admin", queue := "q" }

/-- C4 witness: a successful concrete invocation exits 0. -/
theorem claim_C4_witness : exitCode (emsSendMain okArgs okWorld) = 0 :=
  (claim_C4 okArgs noUserPubArgs noUserRRArgs false okWorld).1.mpr
    ⟨rfl, "", mkSendResult 200 "PONG" none, rfl, rfl⟩

end BridgePy
